import Mathlib

/-!
Shallow embedding of the coder-mcp runtime package: the environment
lifecycle backends (DockerRuntime, LocalRuntime), the shared health-poll
loop, the temporary-workspace materializer and the recursive permission
grant, together with theorems settling the specification claims.
-/

namespace CoderMcp

/-- Tool identifiers, from coder_mcp/types.py (CoderToolName). -/
inductive CoderToolName where
  | bash
  | view_file
  | list_directory
  | create_file
  | str_replace
  | insert_lines
  | delete_file
  | undo_edit
  | search_filenames
  | search_content
  deriving DecidableEq, Repr

/-- The tool_filter dictionary passed to the MCP client: each key is present
only when the corresponding argument was set (truthy) in coder_mcp. -/
structure ToolFilter where
  allowed_tool_names : Option (List CoderToolName)
  blocked_tool_names : Option (List CoderToolName)
  deriving DecidableEq, Repr

/-- Python truthiness of an optional list: None and the empty list are falsy. -/
def listTruthy : Option (List CoderToolName) → Bool
  | none => false
  | some l => !l.isEmpty

/-- Python truthiness of an optional string: None and "" are falsy. -/
def strOptTruthy : Option String → Bool
  | none => false
  | some s => !s.isEmpty

/-- Python truthiness of an optional integer: None and 0 are falsy. -/
def natOptTruthy : Option Nat → Bool
  | none => false
  | some p => p != 0

/-- The tool_filter construction shared verbatim by DockerRuntime.coder_mcp
and LocalRuntime.coder_mcp: start from an empty dict and add a key only
when the argument is truthy. -/
def mkToolFilter (allowed blocked : Option (List CoderToolName)) : ToolFilter where
  allowed_tool_names := if listTruthy allowed then allowed else none
  blocked_tool_names := if listTruthy blocked then blocked else none

/-- Connection descriptor returned by coder_mcp (MCPServerStreamableHttp):
address, filter and timeouts; no connection is opened. -/
structure MCPConn where
  name : String
  url : String
  timeout : Option Nat
  tool_filter : ToolFilter
  cache_tools_list : Bool
  client_session_timeout_seconds : Option Nat
  deriving DecidableEq, Repr

/-- The fixed allow-list used by both backends' coder_mcp_readonly. -/
def readonlyToolNames : List CoderToolName :=
  [.view_file, .list_directory, .search_filenames, .search_content]

/-- Effects issued by the stop path of a backend. -/
inductive StopEffect where
  | dockerStop (container : String)
  | serverStop
  deriving DecidableEq, Repr

/-- State of a DockerRuntime instance (docker_runtime.py __init__ fields
plus the _container_id resource reference). -/
structure DockerRuntime where
  workspace_dir : List String
  image_name : String
  container_name : String
  host_port : Option Nat
  env_vars : List (String × String)
  volumes : List (String × String)
  port_mappings : List String
  container_id : Option String
  deriving DecidableEq, Repr

/-- State of a LocalRuntime instance (local_runtime.py __init__ fields plus
the _server resource reference, kept abstract). -/
structure LocalRuntime where
  workdir : String
  port : Option Nat
  url : String
  server : Option Unit
  deriving DecidableEq, Repr

/-- Render a resolved host port the way the Python f-string would. -/
def portStr : Option Nat → String
  | none => "None"
  | some p => toString p

/-- DockerRuntime.coder_mcp: descriptor with the localhost /mcp address,
a 15 s connect timeout, tool-list caching and a 300 s session timeout. -/
def DockerRuntime.coder_mcp (d : DockerRuntime)
    (allowed_tool_names blocked_tool_names : Option (List CoderToolName)) : MCPConn where
  name := "Docker MCP Server"
  url := "http://localhost:" ++ portStr d.host_port ++ "/mcp"
  timeout := some 15
  tool_filter := mkToolFilter allowed_tool_names blocked_tool_names
  cache_tools_list := true
  client_session_timeout_seconds := some 300

/-- DockerRuntime.coder_mcp_readonly: coder_mcp with the fixed allow-list
and no blocked list. -/
def DockerRuntime.coder_mcp_readonly (d : DockerRuntime) : MCPConn :=
  d.coder_mcp (some readonlyToolNames) none

/-- LocalRuntime.coder_mcp: descriptor with the stored URL and no caching. -/
def LocalRuntime.coder_mcp (l : LocalRuntime)
    (allowed_tool_names blocked_tool_names : Option (List CoderToolName)) : MCPConn where
  name := "Local MCP Server"
  url := l.url
  timeout := none
  tool_filter := mkToolFilter allowed_tool_names blocked_tool_names
  cache_tools_list := false
  client_session_timeout_seconds := none

/-- LocalRuntime.coder_mcp_readonly: coder_mcp with the fixed allow-list
and no blocked list. -/
def LocalRuntime.coder_mcp_readonly (l : LocalRuntime) : MCPConn :=
  l.coder_mcp (some readonlyToolNames) none

/-- DockerRuntime.__aexit__: if _container_id is truthy, issue a docker stop
(its outcome is ignored) and clear the reference; otherwise do nothing.
Total: the modelled stop path raises nothing. -/
def DockerRuntime.aexit (d : DockerRuntime) : DockerRuntime × List StopEffect :=
  if strOptTruthy d.container_id then
    ({ d with container_id := none }, [StopEffect.dockerStop d.container_name])
  else (d, [])

/-- LocalRuntime.__aexit__: if _server is set, invoke the server's stop.
The reference is NOT cleared. Total: the modelled stop path raises nothing. -/
def LocalRuntime.aexit (l : LocalRuntime) : LocalRuntime × List StopEffect :=
  match l.server with
  | some _ => (l, [StopEffect.serverStop])
  | none => (l, [])

/-- Per-attempt probe timeout in the shared health loop:
urlopen(url, timeout=1) in Runtime._wait_for_health. -/
def healthProbeAttemptTimeout : Nat := 1

/-- Interval slept between successive health probes:
asyncio.sleep(1) in Runtime._wait_for_health. -/
def healthPollInterval : Nat := 1

/-- Timeout message raised by Runtime._wait_for_health. -/
def healthTimeoutMsg (url : String) (timeout : Nat) : String :=
  "Server at " ++ url ++ " failed to become healthy in " ++ toString timeout ++ "s."

/-- Discrete-time model of the shared health-poll loop: probe at times
0, healthPollInterval, 2*healthPollInterval, ... while elapsed < timeout. -/
def pollHealthGo (healthy : Nat → Bool) (url : String) (timeout : Nat) :
    Nat → Nat → Except String Nat
  | 0, _ => Except.error (healthTimeoutMsg url timeout)
  | fuel + 1, t =>
    if t < timeout then
      if healthy t then Except.ok t
      else pollHealthGo healthy url timeout fuel (t + healthPollInterval)
    else Except.error (healthTimeoutMsg url timeout)

/-- Entry point of the health-poll model, with enough fuel to cover the
whole timeout window. -/
def pollHealth (healthy : Nat → Bool) (url : String) (timeout : Nat) : Except String Nat :=
  pollHealthGo healthy url timeout (timeout + 1) 0

/-- Result of DockerRuntime._wait_for_health: the error that propagates and
the diagnostic records written to the log. -/
structure HealthWaitOutcome where
  result : Except String Unit
  logRecords : List String
  deriving Repr

/-- DockerRuntime._wait_for_health wrapper: on timeout, fetch the container
logs (containerLogs is whatever the docker logs call produced on stdout,
possibly empty), write them to the log, and re-raise the original error. -/
def dockerWaitForHealth (base : Except String Unit) (containerLogs : String) :
    HealthWaitOutcome :=
  match base with
  | Except.ok _ => ⟨Except.ok (), []⟩
  | Except.error e =>
      ⟨Except.error e,
       ["Server failed to become healthy. Logs:\n" ++ containerLogs]⟩

/-- Port-publish arguments of the docker run command: an explicit truthy
host port is reused verbatim, otherwise -P requests ephemeral ports. -/
def dockerPortArgs (host_port : Option Nat) : List String :=
  if natOptTruthy host_port then
    ["-p", portStr host_port ++ ":3000"]
  else ["-P"]

/-- Steps of DockerRuntime.__aenter__'s port-discovery phase. -/
inductive StartStep where
  | settleDelayTenths (tenths : Nat)
  | enginePortQuery (container : String) (internalPort : Nat)
  deriving DecidableEq, Repr

/-- The discovery steps run after launch: nothing when host_port is truthy,
otherwise a 0.5 s settling delay followed by a docker port query. -/
def portDiscoverySteps (d : DockerRuntime) : List StartStep :=
  if natOptTruthy d.host_port then []
  else [StartStep.settleDelayTenths 5, StartStep.enginePortQuery d.container_name 3000]

/-- The host port the runtime ends up with after the port phase: a truthy
explicit port verbatim, otherwise the engine-assigned port. -/
def resolvedHostPort (host_port : Option Nat) (engineAssigned : Nat) : Nat :=
  match host_port with
  | some p => if p != 0 then p else engineAssigned
  | none => engineAssigned

/-- Full docker run command line built by DockerRuntime.__aenter__. -/
def dockerRunCmd (d : DockerRuntime) : List String :=
  ["docker", "run", "-d", "--name", d.container_name, "--rm"]
    ++ dockerPortArgs d.host_port
    ++ d.env_vars.flatMap (fun kv => ["-e", kv.1 ++ "=" ++ kv.2])
    ++ d.volumes.flatMap (fun v => ["-v", v.1 ++ ":" ++ v.2])
    ++ d.port_mappings.flatMap (fun m => ["-p", m])
    ++ [d.image_name]

/-- Relative path inside a directory tree, as a list of name components. -/
abbrev Path := List String

/-- A directory tree as a finite list of (file path, file content) pairs. -/
abbrev FS := List (Path × String)

/-- Whether a tree contains a file at exactly this path. -/
def hasPath (fs : FS) (p : Path) : Bool := fs.any (fun e => e.1 == p)

/-- shutil.copytree(src, dst, dirs_exist_ok=True): files of src land in dst,
overwriting files at the same path; other dst files survive. -/
def copytreeInto (src dst : FS) : FS :=
  dst.filter (fun e => !(hasPath src e.1)) ++ src

/-- Remove one top-level entry (file or directory subtree) of the tree,
as shutil.rmtree / Path.unlink does for an item of temp_dir.iterdir(). -/
def removeEntry (fs : FS) (n : String) : FS :=
  fs.filter (fun e => !(e.1.headD "" == n))

/-- The names yielded by temp_dir.iterdir(): top-level names of the tree. -/
def topLevelNames (fs : FS) : List String :=
  (fs.map (fun e => e.1.headD "")).dedup

/-- The clean-up loop of the clone-failure branch: remove every entry
listed by iterdir. -/
def clearDir (fs : FS) : FS :=
  (topLevelNames fs).foldl removeEntry fs

/-- Whether a tree carries version-control metadata (a top-level .git).
Modelled from the spec: the external git boundary makes clone succeed
exactly on a repository source and fail otherwise. -/
def isGitRepo (fs : FS) : Bool := fs.any (fun e => e.1.headD "" == ".git")

/-- Outcome of the external git clone call into the fresh directory:
either the cloned content, or a failure leaving some leftover artifacts. -/
inductive CloneResult where
  | cloned (content : FS)
  | failed (leftoverArtifacts : FS)
  deriving Repr

/-- Modelled from the spec: git clone (external boundary) succeeds on a
version-control repository and reproduces its content; on a non-repository
source it fails, possibly leaving leftover artifacts in the destination. -/
def gitClone (tpl leftover : FS) : CloneResult :=
  if isGitRepo tpl then CloneResult.cloned tpl else CloneResult.failed leftover

/-- Step 2 of TempWorkspace._setup, on the fresh (empty) temp directory:
copy or clone the template; a clone failure is caught, every entry of the
destination is removed, and a full copy is performed instead. -/
def templateStage (template_dir : Option FS) (copy_method : String)
    (clone : CloneResult) : Except String FS :=
  match template_dir with
  | none => Except.ok []
  | some tpl =>
    if copy_method = "clone" then
      match clone with
      | CloneResult.cloned content => Except.ok content
      | CloneResult.failed leftover =>
          Except.ok (copytreeInto tpl (clearDir leftover))
    else Except.ok (copytreeInto tpl [])

/-- An injection source: a directory tree or a single file's content. -/
inductive InjSource where
  | dir (content : FS)
  | file (content : String)
  deriving Repr

/-- Step 3 of TempWorkspace._setup for one injection: remove any existing
entry at the destination, then copy the source there. -/
def applyInjection (ws : FS) (inj : InjSource × Path) : FS :=
  let cleared := ws.filter (fun e => !(inj.2.isPrefixOf e.1))
  match inj.1 with
  | InjSource.dir content => cleared ++ content.map (fun e => (inj.2 ++ e.1, e.2))
  | InjSource.file content => cleared ++ [(inj.2, content)]

/-- Step 3 of TempWorkspace._setup: injections applied in caller order. -/
def applyInjections (ws : FS) (injs : List (InjSource × Path)) : FS :=
  injs.foldl applyInjection ws

/-- A directory tree with permission bits: (path, mode) pairs, where the
empty path denotes the workspace root itself. -/
abbrev PermFS := List (Path × Nat)

/-- root is strictly above p: root is a proper prefix of p. This is the
set of paths yielded by root.rglob("*"), which excludes root itself. -/
def isStrictlyUnder (root p : Path) : Bool :=
  root.isPrefixOf p && decide (root.length < p.length)

/-- chmod_recursive from utils.py: every entry yielded by path.rglob("*")
has its mode set to 0o777 (511); the root keeps its own mode. -/
def chmod_recursive (root : Path) (fs : PermFS) : PermFS :=
  fs.map (fun e => if isStrictlyUnder root e.1 then (e.1, 511) else e)

/-- Mode recorded for a path, if the tree has an entry for it. -/
def permOf (fs : PermFS) (p : Path) : Option Nat :=
  (fs.find? (fun e => e.1 == p)).map (fun e => e.2)

/-- A concrete started DockerRuntime with an explicit host port. -/
def dockerSample : DockerRuntime where
  workspace_dir := ["home", "user", "ws"]
  image_name := "coder-mcp"
  container_name := "mcp-server-ab12cd34"
  host_port := some 8080
  env_vars := []
  volumes := [("/home/user/ws", "/workspace")]
  port_mappings := []
  container_id := some "deadbeef"

/-- A concrete template tree with no version-control metadata. -/
def sampleTemplate : FS := [(["a.txt"], "A"), (["docs", "b.txt"], "B")]

/-- Concrete leftover artifacts of a failed clone. -/
def sampleLeftover : FS := [([".git", "HEAD"], "ref"), (["x"], "y")]

/-- A concrete started LocalRuntime. -/
def localSample : LocalRuntime where
  workdir := "."
  port := some 3000
  url := "http://localhost:3000/mcp"
  server := some ()

end CoderMcp

namespace CoderMcp

/-- Claim C1: for both backends and any runtime state, coder_mcp_readonly
yields a tool filter whose allow-list is exactly
[view_file, list_directory, search_filenames, search_content] and whose
block-list is absent. -/
theorem readonly_filter_fixed (d : DockerRuntime) (l : LocalRuntime) :
    (d.coder_mcp_readonly).tool_filter =
      { allowed_tool_names :=
          some [.view_file, .list_directory, .search_filenames, .search_content]
        blocked_tool_names := none } ∧
    (l.coder_mcp_readonly).tool_filter =
      { allowed_tool_names :=
          some [.view_file, .list_directory, .search_filenames, .search_content]
        blocked_tool_names := none } := by
  constructor <;> rfl

/-- Claim C8: for both backends, coder_mcp with the allow and block
arguments each absent or the empty list yields an unrestricted filter:
neither key is present. -/
theorem empty_filters_unrestricted (d : DockerRuntime) (l : LocalRuntime)
    (a b : Option (List CoderToolName))
    (ha : a = none ∨ a = some []) (hb : b = none ∨ b = some []) :
    (d.coder_mcp a b).tool_filter = ⟨none, none⟩ ∧
    (l.coder_mcp a b).tool_filter = ⟨none, none⟩ := by
  rcases ha with ha | ha <;> rcases hb with hb | hb <;> subst ha <;> subst hb <;>
    constructor <;> rfl

/-- Witness for C8 at a concrete runtime pair with one absent and one
empty argument. -/
theorem empty_filters_unrestricted_witness :
    (dockerSample.coder_mcp none (some [])).tool_filter = ⟨none, none⟩ ∧
    (localSample.coder_mcp none (some [])).tool_filter = ⟨none, none⟩ :=
  ⟨(empty_filters_unrestricted dockerSample localSample none (some [])
      (Or.inl rfl) (Or.inr rfl)).1,
   (empty_filters_unrestricted dockerSample localSample none (some [])
      (Or.inl rfl) (Or.inr rfl)).2⟩

/-- Counterexample to C2 as stated: for LocalRuntime, after a first stop the
server reference is NOT cleared, and a second stop invokes the server's stop
again instead of releasing nothing. -/
theorem local_stop_reference_not_cleared :
    ((localSample.aexit).1).server ≠ none ∧
    (((localSample.aexit).1).aexit).2 = [StopEffect.serverStop] := by
  constructor <;> decide

/-- Claim C2 as amended: stop before a successful start is a no-op for both
backends (and the modelled stop path is total, so it raises nothing);
for DockerRuntime the first stop clears the container reference and a
second stop releases nothing; for LocalRuntime the server reference is not
cleared and a second stop re-invokes the server's stop. -/
theorem stop_idempotence_model (d0 : DockerRuntime) (l0 : LocalRuntime)
    (cid : String) :
    ({ d0 with container_id := none }.aexit) = ({ d0 with container_id := none }, []) ∧
    ({ l0 with server := none }.aexit) = ({ l0 with server := none }, []) ∧
    ((({ d0 with container_id := some cid }.aexit).1).aexit).2 = [] ∧
    ((({ l0 with server := some () }.aexit).1).aexit).2 = [StopEffect.serverStop] := by
  refine ⟨?_, ?_, ?_, ?_⟩
  · simp [DockerRuntime.aexit, strOptTruthy]
  · rfl
  · by_cases h : cid.isEmpty <;>
      simp [DockerRuntime.aexit, strOptTruthy, h]
  · rfl

/-- Counterexample to C3 as stated: the per-attempt probe timeout is not
strictly smaller than the polling interval. -/
theorem probe_timeout_not_lt_interval :
    ¬ (healthProbeAttemptTimeout < healthPollInterval) := by decide

/-- Claim C3 as amended: the per-attempt probe timeout equals the polling
interval; both are 1 second. -/
theorem probe_timeout_eq_interval :
    healthProbeAttemptTimeout = healthPollInterval ∧ healthProbeAttemptTimeout = 1 := by
  decide

/-- Counterexample to C4 as stated: on a health timeout with nonempty
container logs, the propagated error is the original timeout error, not the
timeout error with the logs appended. -/
theorem health_logs_not_attached :
    (dockerWaitForHealth (Except.error "timeout") "LOGS").result =
      Except.error "timeout" ∧
    (dockerWaitForHealth (Except.error "timeout") "LOGS").result ≠
      Except.error ("timeout" ++ "LOGS") := by
  refine ⟨rfl, ?_⟩
  intro h
  simp [dockerWaitForHealth] at h

/-- Claim C4 as amended: on a health timeout the fetched container logs are
written to the log (a record containing them verbatim), while the original
timeout error propagates unmodified, whatever the log fetch produced. -/
theorem health_timeout_error_unmodified (msg logs : String) :
    (dockerWaitForHealth (Except.error msg) logs).result = Except.error msg ∧
    (dockerWaitForHealth (Except.error msg) logs).logRecords =
      ["Server failed to become healthy. Logs:\n" ++ logs] := by
  exact ⟨rfl, rfl⟩

/-- Counterexample to C5 as stated: at the explicit host port 0 the publish
arguments do not reuse the port verbatim and the discovery steps run. -/
theorem explicit_port_zero_runs_discovery :
    dockerPortArgs (some 0) ≠ ["-p", "0:3000"] ∧
    portDiscoverySteps { dockerSample with host_port := some 0 } ≠ [] := by
  constructor <;> decide

/-- Claim C5 as amended: for every NONZERO explicit host port, the container
is published on exactly that port, no discovery step runs (no settling
delay, no engine port query), the resolved port ignores the engine value,
and the endpoint address uses the port verbatim. -/
theorem explicit_port_no_discovery (d : DockerRuntime) (p e : Nat)
    (hp : d.host_port = some p) (h0 : p ≠ 0) :
    dockerPortArgs d.host_port = ["-p", toString p ++ ":3000"] ∧
    portDiscoverySteps d = [] ∧
    resolvedHostPort d.host_port e = p ∧
    (d.coder_mcp none none).url = "http://localhost:" ++ toString p ++ "/mcp" := by
  refine ⟨?_, ?_, ?_, ?_⟩
  · simp [dockerPortArgs, natOptTruthy, hp, h0, portStr]
  · simp [portDiscoverySteps, natOptTruthy, hp, h0]
  · simp [resolvedHostPort, hp, h0]
  · simp [DockerRuntime.coder_mcp, hp, portStr]

/-- Witness for the amended C5 at the sample runtime with explicit port 8080. -/
theorem explicit_port_no_discovery_witness :
    dockerPortArgs dockerSample.host_port = ["-p", toString 8080 ++ ":3000"] ∧
    portDiscoverySteps dockerSample = [] ∧
    resolvedHostPort dockerSample.host_port 49483 = 8080 ∧
    (dockerSample.coder_mcp none none).url =
      "http://localhost:" ++ toString 8080 ++ "/mcp" :=
  explicit_port_no_discovery dockerSample 8080 49483 rfl (by decide)

/-- Claim C9: an explicit host port 0 is treated exactly like an unspecified
port: the publish arguments are -P, the discovery steps (settling delay and
engine port query) run, and the resolved port is the engine-assigned one. -/
theorem host_port_zero_as_unspecified (d0 : DockerRuntime) (e : Nat) :
    dockerPortArgs (some 0) = ["-P"] ∧
    dockerPortArgs (some 0) = dockerPortArgs none ∧
    portDiscoverySteps { d0 with host_port := some 0 } =
      portDiscoverySteps { d0 with host_port := none } ∧
    portDiscoverySteps { d0 with host_port := some 0 } =
      [StartStep.settleDelayTenths 5,
       StartStep.enginePortQuery d0.container_name 3000] ∧
    resolvedHostPort (some 0) e = e :=
  ⟨rfl, rfl, rfl, rfl, rfl⟩

/-- Every element surviving the removal fold was in the original tree and
has its top-level name outside the removed name list. -/
theorem mem_foldl_removeEntry (names : List String) (fs : FS) (x : Path × String)
    (hx : x ∈ names.foldl removeEntry fs) : x ∈ fs ∧ x.1.headD "" ∉ names := by
  induction names generalizing fs with
  | nil => simpa using hx
  | cons n ns ih =>
    rw [List.foldl_cons] at hx
    obtain ⟨h2, h3⟩ := ih (removeEntry fs n) hx
    rw [removeEntry, List.mem_filter] at h2
    obtain ⟨h4, h5⟩ := h2
    refine ⟨h4, ?_⟩
    simp only [List.mem_cons, not_or]
    exact ⟨by simpa using h5, h3⟩

/-- The clean-up loop of the clone-failure branch empties the directory. -/
theorem clearDir_eq_nil (fs : FS) : clearDir fs = [] := by
  rw [List.eq_nil_iff_forall_not_mem]
  intro x hx
  simp only [clearDir] at hx
  obtain ⟨hmem, hnot⟩ := mem_foldl_removeEntry (topLevelNames fs) fs x hx
  exact hnot (List.mem_dedup.mpr (List.mem_map_of_mem _ hmem))

/-- Claim C6: with strategy clone and a template that is not a
version-control repository, the template stage does not fail: the clone
error is swallowed, the destination is reset to empty, and the result is a
full recursive copy of the template. -/
theorem clone_fallback_full_copy (tpl leftover : FS)
    (h : isGitRepo tpl = false) :
    templateStage (some tpl) "clone" (gitClone tpl leftover) = Except.ok tpl ∧
    clearDir leftover = [] := by
  refine ⟨?_, clearDir_eq_nil leftover⟩
  simp [templateStage, gitClone, h, clearDir_eq_nil, copytreeInto]

/-- Witness for C6 at a concrete non-repository template with concrete
leftover clone artifacts. -/
theorem clone_fallback_full_copy_witness :
    isGitRepo sampleTemplate = false ∧
    (templateStage (some sampleTemplate) "clone"
        (gitClone sampleTemplate sampleLeftover) = Except.ok sampleTemplate ∧
      clearDir sampleLeftover = []) :=
  ⟨by decide,
   clone_fallback_full_copy sampleTemplate sampleLeftover (by decide)⟩

/-- The root is never strictly under itself. -/
theorem isStrictlyUnder_self (root : Path) :
    isStrictlyUnder root root = false := by
  simp [isStrictlyUnder]

/-- The permission recorded after chmod_recursive: 511 for entries strictly
under the root, unchanged otherwise. -/
theorem permOf_chmod_recursive (root p : Path) (fs : PermFS) :
    permOf (chmod_recursive root fs) p =
      if isStrictlyUnder root p then (permOf fs p).map (fun _ => 511)
      else permOf fs p := by
  induction fs with
  | nil => cases h : isStrictlyUnder root p <;> simp [chmod_recursive, permOf, h]
  | cons e es ih =>
    cases hp : (e.1 == p) with
    | true =>
      have hpe : e.1 = p := by simpa using hp
      subst hpe
      cases hc : isStrictlyUnder root e.1 <;>
        simp [chmod_recursive, permOf, hc, hp] at ih ⊢
    | false =>
      cases hc : isStrictlyUnder root e.1 <;>
        cases hup : isStrictlyUnder root p <;>
        simp_all [chmod_recursive, permOf, List.find?_cons, hp, hc, hup]

/-- Claim C10: the recursive permission grant changes the mode only of
entries strictly inside the root directory (to 0o777 = 511); the mode of
the root directory itself, and of anything outside it, is unchanged. -/
theorem chmod_recursive_frame (root p : Path) (fs : PermFS) :
    permOf (chmod_recursive root fs) root = permOf fs root ∧
    permOf (chmod_recursive root fs) p =
      (if isStrictlyUnder root p then (permOf fs p).map (fun _ => 511)
       else permOf fs p) := by
  refine ⟨?_, permOf_chmod_recursive root p fs⟩
  rw [permOf_chmod_recursive root root fs, isStrictlyUnder_self]
  simp

end CoderMcp
